import Mathlib

/-!
Verification development for the Buzz vibration-communication app.

The repository ships a React/TypeScript frontend (session UI, WebSocket hook,
haptic utility) and documents a FastAPI backend (session registry, join/leave/
broadcast, idle reaper).  The frontend sources are embedded directly; the
backend modules are not present in the repository snapshot, so the backend
data model and operations are modelled from the design document.
-/

/-! ## String helpers (model of JavaScript String.prototype.includes) -/

/-- Checks whether `sub` occurs as a contiguous run inside the character list. -/
def includesAux (sub : List Char) : List Char → Bool
  | [] => sub.isEmpty
  | c :: rest => sub.isPrefixOf (c :: rest) || includesAux sub rest

/-- Model of the JavaScript expression `s.includes(sub)`. -/
def jsIncludes (s sub : String) : Bool :=
  includesAux sub.data s.data

/-! ## Frontend: error handlers of the two App components

`src/frontend/src/App.tsx` (error case of the message switch) and the second
App component in `src/unnamed/part_001` both react to an incoming
`error{message}` by matching on the message text and raising an alert. -/

/-- Error handler of `src/frontend/src/App.tsx` (lines 48-58): the alert text
shown for an incoming error message, `none` when no alert is raised. -/
def errorAlertApp (msg : String) : Option String :=
  if jsIncludes msg "Session is full" then
    some "Session is full. Maximum 2 users allowed."
  else if jsIncludes msg "Session not found" then
    some "Session not found. Please check the session code."
  else
    none

/-- Error handler of the App component in `src/unnamed/part_001`
(lines 98-115): the alert text shown for an incoming error message. -/
def errorAlertApp2 (msg : String) : Option String :=
  if jsIncludes msg "Session is full" then
    some "Session is full. Maximum 5 users allowed."
  else if jsIncludes msg "Session not found" then
    some "Session not found. The session may have expired. Please create or join a new session."
  else
    none

/-! ## Haptic utility (`src/unnamed/part_004`, two versions) -/

/-- Pattern switch of the first `triggerHaptic` version
(`src/unnamed/part_004` lines 62-77): vibration array chosen for a numeric
pattern. -/
def patternArrayV1 (p : Int) : List Nat :=
  if p = 1 then [200]
  else if p = 2 then [200, 100, 200]
  else if p = 3 then [200, 100, 200, 100, 200]
  else if p = 4 then [200, 100, 200, 100, 200, 100, 200]
  else [200]

/-- Pattern switch of the second `triggerHaptic` version
(`src/unnamed/part_004` lines 255-274), which adds a case for pattern 5. -/
def patternArrayV2 (p : Int) : List Nat :=
  if p = 1 then [200]
  else if p = 2 then [200, 100, 200]
  else if p = 3 then [200, 100, 200, 100, 200]
  else if p = 4 then [200, 100, 200, 100, 200, 100, 200]
  else if p = 5 then [5000]
  else [200]

/-- The array of `n` pulses of 200 ms separated by 100 ms pauses. -/
def pulses (n : Nat) : List Nat :=
  List.intersperse 100 (List.replicate n 200)

/-- Count of vibration pulses in a pattern array: non-zero values at even
indices (`getVibrationCount` in `src/unnamed/part_004`). -/
def getVibrationCount (pattern : List Nat) : Nat :=
  (pattern.enum.filter (fun vi => vi.1 % 2 == 0 && vi.2 > 0)).length

/-- Platform capabilities and failure modes seen by `triggerHaptic`:
whether `window.Capacitor` is defined, whether the Capacitor haptics calls
throw, whether `navigator.vibrate` exists, whether it throws, and whether the
user agent is an iOS device. -/
structure HapticEnv where
  capacitor : Bool
  capacitorFails : Bool
  vibrationAPI : Bool
  vibrateFails : Bool
  ios : Bool
  deriving DecidableEq

/-- The externally visible effect of one `triggerHaptic` call. -/
inductive HapticAction where
  | capacitorImpacts (count : Nat)
  | vibrated (arr : List Nat)
  | iosLimited
  | noSupport
  deriving DecidableEq

/-- The Capacitor `Haptics.impact` loop; throws when the plugin is
unavailable. -/
def capacitorImpact (env : HapticEnv) (count : Nat) : Except String HapticAction :=
  if env.capacitorFails then .error "Capacitor Haptics not available"
  else .ok (.capacitorImpacts count)

/-- The call `navigator.vibrate(patternArray)`; throws when the platform
rejects it. -/
def navigatorVibrate (env : HapticEnv) (arr : List Nat) : Except String HapticAction :=
  if env.vibrateFails then .error "Vibration API failed"
  else .ok (.vibrated arr)

/-- A JavaScript try/catch block: on an exception, run the fallback. -/
def tryCatch (a fallback : Except String HapticAction) : Except String HapticAction :=
  match a with
  | .ok r => .ok r
  | .error _ => fallback

/-- Control flow of the first `triggerHaptic` version
(`src/unnamed/part_004` lines 55-131) on a numeric pattern: Capacitor branch
first (its failures caught), then the Vibration API branch (failures caught),
then the iOS limitation branch, then the unsupported branch. -/
def triggerHapticV1 (env : HapticEnv) (p : Int) : Except String HapticAction :=
  let patternArray := patternArrayV1 p
  let iosBranch : Except String HapticAction :=
    if env.ios && !env.capacitor then .ok .iosLimited else .ok .noSupport
  let vibrationBranch : Except String HapticAction :=
    if env.vibrationAPI then tryCatch (navigatorVibrate env patternArray) iosBranch
    else iosBranch
  if env.capacitor then
    tryCatch (capacitorImpact env (getVibrationCount patternArray)) vibrationBranch
  else vibrationBranch

/-- Claim C9: for every pattern in 1..4 the two `triggerHaptic` versions in
the repository compute the same vibration pattern array, namely the arrays
listed in the claim. -/
theorem claim9_haptic_versions_agree :
    patternArrayV1 1 = [200] ∧ patternArrayV2 1 = [200] ∧
    patternArrayV1 2 = [200, 100, 200] ∧ patternArrayV2 2 = [200, 100, 200] ∧
    patternArrayV1 3 = [200, 100, 200, 100, 200] ∧
    patternArrayV2 3 = [200, 100, 200, 100, 200] ∧
    patternArrayV1 4 = [200, 100, 200, 100, 200, 100, 200] ∧
    patternArrayV2 4 = [200, 100, 200, 100, 200, 100, 200] := by
  refine ⟨rfl, rfl, rfl, rfl, rfl, rfl, rfl, rfl⟩

/-- Claim C10: the first `triggerHaptic` version is total on numeric inputs.
Every call returns normally (no exception escapes the internal catch
branches, whatever the platform flags), the array selected for a pattern
n in 1..4 is n pulses of 200 ms separated by 100 ms pauses, and every number
outside 1..4 selects the default single-pulse array. -/
theorem claim10_triggerHaptic_total (env : HapticEnv) (p : Int) :
    (∃ a, triggerHapticV1 env p = .ok a) ∧
    (p ≠ 1 → p ≠ 2 → p ≠ 3 → p ≠ 4 → patternArrayV1 p = [200]) ∧
    (patternArrayV1 1 = pulses 1 ∧ patternArrayV1 2 = pulses 2 ∧
     patternArrayV1 3 = pulses 3 ∧ patternArrayV1 4 = pulses 4) := by
  refine ⟨?_, ?_, by decide⟩
  · rcases env with ⟨c, cf, va, vf, ios⟩
    cases c <;> cases cf <;> cases va <;> cases vf <;> cases ios <;>
      exact ⟨_, rfl⟩
  · intro h1 h2 h3 h4
    simp [patternArrayV1, h1, h2, h3, h4]

/-- Witness for claim C10 at a concrete environment and the out-of-range
pattern 9. -/
theorem claim10_witness :
    (∃ a, triggerHapticV1 ⟨false, false, true, false, false⟩ 9 = .ok a) ∧
    patternArrayV1 9 = [200] :=
  ⟨(claim10_triggerHaptic_total ⟨false, false, true, false, false⟩ 9).1,
   (claim10_triggerHaptic_total ⟨false, false, true, false, false⟩ 9).2.1
     (by decide) (by decide) (by decide) (by decide)⟩

/-! ## WebSocket hook (`src/unnamed/part_003`, `useWebSocket`) -/

/-- Maximum number of reconnect attempts (`maxReconnectAttempts`). -/
def maxReconnectAttempts : Nat := 5

/-- Base reconnect delay in milliseconds (`baseReconnectDelay`). -/
def baseReconnectDelay : Nat := 1000

/-- Delay before the retry scheduled when the attempt counter reads `k`
(`baseReconnectDelay * Math.pow(2, reconnectAttemptsRef.current)`). -/
def retryDelay (k : Nat) : Nat := baseReconnectDelay * 2 ^ k

/-- What the `ws.onclose` handler does: schedule a retry of the same url
after a delay, or give up with a terminal error. -/
inductive CloseAction where
  | retryAfter (delayMs : Nat) (nextAttempts : Nat)
  | giveUp (errMsg : String)
  deriving DecidableEq

/-- The `ws.onclose` handler of `useWebSocket` (`src/unnamed/part_003`
lines 59-74), as a function of the current attempt counter. -/
def onClose (attempts : Nat) : CloseAction :=
  if attempts < maxReconnectAttempts then
    .retryAfter (retryDelay attempts) (attempts + 1)
  else
    .giveUp "Failed to reconnect after multiple attempts"

/-- Claim C3: after an unexpected closure the hook retries with exponential
backoff: the first retry is delayed 1000 ms, every delay doubles, a retry is
scheduled exactly when fewer than 5 attempts have been made, and once the 5
attempts are exhausted a terminal connection error is surfaced. -/
theorem claim3_reconnect_backoff :
    onClose 0 = .retryAfter 1000 1 ∧
    (∀ k, k < maxReconnectAttempts →
      onClose k = .retryAfter (baseReconnectDelay * 2 ^ k) (k + 1)) ∧
    (∀ k, retryDelay (k + 1) = 2 * retryDelay k) ∧
    (∀ k, maxReconnectAttempts ≤ k →
      onClose k = .giveUp "Failed to reconnect after multiple attempts") ∧
    (∀ k d n, onClose k = .retryAfter d n → k < maxReconnectAttempts) := by
  refine ⟨rfl, ?_, ?_, ?_, ?_⟩
  · intro k hk
    simp [onClose, retryDelay, hk]
  · intro k
    simp only [retryDelay, pow_succ]
    ring
  · intro k hk
    simp [onClose, Nat.not_lt.mpr hk]
  · intro k d n h
    by_contra hlt
    simp [onClose, if_neg hlt] at h

/-- Witness for claim C3: the third retry (attempt counter 2) is scheduled
after 4000 ms. -/
theorem claim3_witness : onClose 2 = .retryAfter (baseReconnectDelay * 2 ^ 2) 3 :=
  claim3_reconnect_backoff.2.1 2 (by decide)

/-! ## SessionJoin component (`src/frontend/src/components/SessionJoin.tsx`) -/

/-- Model of the regex test of the literal pattern of six decimal digits
anchored at both ends, as used by `handleSubmit`. -/
def isSixDigitCode (s : String) : Bool :=
  (s.data.length == 6) && s.data.all Char.isDigit

/-- The `handleSubmit` handler (`SessionJoin.tsx` lines 12-23): returns the
code passed to `onJoinSession`, or `none` when the submission is rejected
with the invalid-code error (in which case no join is attempted). -/
def handleSubmit (sessionCode : String) : Option String :=
  if isSixDigitCode sessionCode then some sessionCode else none

/-- The input `onChange` sanitiser (`SessionJoin.tsx` lines 36-47): strips
every non-digit character and keeps at most the first six characters. -/
def sanitizeInput (v : String) : String :=
  String.mk ((v.data.filter Char.isDigit).take 6)

/-- Claim C7: a join target is accepted only when it is exactly six decimal
digits.  A submission that fails the format test is rejected before any join
is attempted, a passing submission is forwarded unchanged, every forwarded
target matches the format, and the input field can only ever hold at most six
digit characters. -/
theorem claim7_join_code_validated :
    (∀ s t, handleSubmit s = some t → isSixDigitCode t = true) ∧
    (∀ s, isSixDigitCode s = false → handleSubmit s = none) ∧
    (∀ s, isSixDigitCode s = true → handleSubmit s = some s) ∧
    (∀ v, (sanitizeInput v).data.length ≤ 6 ∧
      (sanitizeInput v).data.all Char.isDigit = true) := by
  refine ⟨?_, ?_, ?_, ?_⟩
  · intro s t h
    by_cases hs : isSixDigitCode s = true
    · simp [handleSubmit, hs] at h
      exact h ▸ hs
    · simp [handleSubmit, hs] at h
  · intro s hs
    simp [handleSubmit, hs]
  · intro s hs
    simp [handleSubmit, hs]
  · intro v
    constructor
    · show ((v.data.filter Char.isDigit).take 6).length ≤ 6
      exact List.length_take_le 6 _
    · show ((v.data.filter Char.isDigit).take 6).all Char.isDigit = true
      rw [List.all_eq_true]
      intro c hc
      have hmem : c ∈ v.data.filter Char.isDigit := List.take_subset 6 _ hc
      exact (List.mem_filter.mp hmem).2

/-- Witness for claim C7: the concrete submissions of the code 123456 and of
the five-digit code 12345. -/
theorem claim7_witness :
    isSixDigitCode "123456" = true ∧ handleSubmit "12345" = none :=
  ⟨claim7_join_code_validated.1 "123456" "123456" rfl,
   claim7_join_code_validated.2.1 "12345" (by decide)⟩

/-! ## Wire message types (`src/frontend/src/types/websocket.ts`) -/

/-- The `type` tags of `SessionMessage`. -/
inductive SessionMsgType where
  | create_session
  | join_session
  deriving DecidableEq

/-- The `type` tags of `StatusMessage`. -/
inductive StatusMsgType where
  | partner_connected
  | partner_disconnected
  | session_created
  | session_joined
  | error
  deriving DecidableEq

/-- The `WebSocketMessage` union: a vibrate message with its required numeric
`pattern`, a session message with its optional `session_code`, or a status
message with its optional `session_code`, `message` and `user_count`. -/
inductive WebSocketMessage where
  | vibrate (pattern : Int)
  | session (t : SessionMsgType) (session_code : Option String)
  | status (t : StatusMsgType) (session_code : Option String)
      (message : Option String) (user_count : Option Int)
  deriving DecidableEq

/-- The value of the required `type` discriminator of a wire message. -/
def msgType : WebSocketMessage → String
  | .vibrate _ => "vibrate"
  | .session .create_session _ => "create_session"
  | .session .join_session _ => "join_session"
  | .status .partner_connected _ _ _ => "partner_connected"
  | .status .partner_disconnected _ _ _ => "partner_disconnected"
  | .status .session_created _ _ _ => "session_created"
  | .status .session_joined _ _ _ => "session_joined"
  | .status .error _ _ _ => "error"

/-- The field name contributed by an optional field when it is present. -/
def optField (fieldName : String) : Option α → List String
  | some _ => [fieldName]
  | none => []

/-- The set of field names present in the JSON serialisation of a wire
message. -/
def fieldNames : WebSocketMessage → List String
  | .vibrate _ => ["type", "pattern"]
  | .session _ sc => "type" :: optField "session_code" sc
  | .status _ sc m uc =>
      "type" :: (optField "session_code" sc ++ optField "message" m ++
        optField "user_count" uc)

/-- Claim C8 counterexample: the `WebSocketMessage` type admits a
`partner_connected` message carrying no `user_count` field at all (all
status fields are optional in the source type), so a variant does not carry
exactly the variant-specific fields of the message table. -/
theorem claim8_counterexample :
    msgType (WebSocketMessage.status .partner_connected none none none) =
      "partner_connected" ∧
    ¬ ("user_count" ∈
      fieldNames (WebSocketMessage.status .partner_connected none none none)) := by
  refine ⟨rfl, ?_⟩
  decide

/-- Claim C8, amended: every wire message has a required `type`
discriminator; the variant-specific field names are drawn from exactly the
contract names `session_code`, `pattern`, `message` and `user_count`, but for
the session and status variants those fields are optional and shared across
the variants of their group rather than exact per variant; the vibrate
variant always carries its numeric `pattern` field. -/
theorem claim8_wire_fields (m : WebSocketMessage) :
    "type" ∈ fieldNames m ∧
    (∀ f ∈ fieldNames m,
      f ∈ ["type", "session_code", "pattern", "message", "user_count"]) ∧
    (∀ p : Int, fieldNames (.vibrate p) = ["type", "pattern"] ∧
      msgType (.vibrate p) = "vibrate") := by
  refine ⟨?_, ?_, fun p => ⟨rfl, rfl⟩⟩
  · rcases m with p | ⟨t, sc⟩ | ⟨t, sc, ms, uc⟩
    · simp [fieldNames]
    · simp [fieldNames]
    · simp [fieldNames]
  · intro f hf
    rcases m with p | ⟨t, sc⟩ | ⟨t, sc, ms, uc⟩
    · simp [fieldNames] at hf
      rcases hf with rfl | rfl <;> simp
    · rcases sc with _ | c
      · simp [fieldNames, optField] at hf
        simp [hf]
      · simp [fieldNames, optField] at hf
        rcases hf with rfl | rfl <;> simp
    · rcases sc with _ | c <;> rcases ms with _ | m0 <;> rcases uc with _ | u0 <;>
        simp [fieldNames, optField] at hf <;>
        rcases hf with rfl | rfl | rfl | rfl <;> simp

/-- Witness for claim C8 at a concrete status message carrying every
optional field. -/
theorem claim8_witness :
    "type" ∈ fieldNames (WebSocketMessage.status .session_created
      (some "483920") none none) ∧
    "session_code" ∈ ["type", "session_code", "pattern", "message", "user_count"] :=
  ⟨(claim8_wire_fields (WebSocketMessage.status .session_created
      (some "483920") none none)).1,
   (claim8_wire_fields (WebSocketMessage.status .session_created
      (some "483920") none none)).2.1 "session_code" (by decide)⟩

/-! ## Backend core, modelled from the design document

The backend modules (`backend/main.py`, `backend/session_manager.py`,
`backend/models.py`) are referenced by the repository documentation but are
not part of the repository snapshot, so the Session data model, the
join/leave/broadcast operations, the code generator and the idle reaper are
modelled from the design document. -/

/-- Modelled from the spec: the error taxonomy of the session operations
(`SessionFull`, `SessionNotFound`); `backend/session_manager.py` is missing
from the snapshot. -/
inductive SessionError where
  | SessionFull
  | SessionNotFound
  deriving DecidableEq

/-- Modelled from the spec: an outbound message produced by a session
operation — a membership update carrying `user_count`, or a relayed payload;
`backend/session_manager.py` is missing from the snapshot. -/
inductive OutMsg where
  | partnerConnected (userCount : Nat)
  | partnerDisconnected (userCount : Nat)
  | relay (payload : Nat)
  deriving DecidableEq

/-- Modelled from the spec: delivery of one outbound message to one member
connection (identified by an opaque numeric identity). -/
structure Emission where
  target : Nat
  msg : OutMsg
  deriving DecidableEq

/-- Modelled from the spec: a Session — its 6-digit code, its members in
join order, and its last-activity timestamp (seconds);
`backend/session_manager.py` is missing from the snapshot. -/
structure Session where
  code : String
  members : List Nat
  lastActivity : Nat
  deriving DecidableEq

/-- Modelled from the spec: the fixed session capacity of 5. -/
def sessionCapacity : Nat := 5

/-- Modelled from the spec: `Session.join` — fails with `SessionFull` when
the member count is 5; otherwise appends the member, updates the activity
timestamp, and enqueues a `partner_connected` broadcast carrying the member
count at the instant of emission to every other current member. -/
def Session.join (s : Session) (identity now : Nat) :
    Except SessionError (Session × List Emission) :=
  if s.members.length == sessionCapacity then .error .SessionFull
  else
    let s' : Session := { s with members := s.members ++ [identity], lastActivity := now }
    .ok (s', s.members.map (fun m => { target := m, msg := .partnerConnected s'.members.length }))

/-- Modelled from the spec: `Session.leave` — removes the member if present
(no-op otherwise), updates the activity timestamp, and broadcasts a
`partner_disconnected` carrying the member count at the instant of emission
to the remaining members. -/
def Session.leave (s : Session) (identity now : Nat) : Session × List Emission :=
  let remaining := s.members.filter (fun m => m != identity)
  let s' : Session := { s with members := remaining, lastActivity := now }
  (s', remaining.map (fun m => { target := m, msg := .partnerDisconnected s'.members.length }))

/-- Modelled from the spec: `Session.broadcast` — delivers the payload to
every member except the sender and updates the activity timestamp. -/
def Session.broadcast (s : Session) (sender payload now : Nat) :
    Session × List Emission :=
  ({ s with lastActivity := now },
   (s.members.filter (fun m => m != sender)).map
     (fun m => { target := m, msg := .relay payload }))

/-- Modelled from the spec: the 6-digit decimal encoding of a sampled number
(leading zeros allowed, space 000000-999999). -/
def toCode (n : Nat) : String :=
  let m := n % 1000000
  String.mk [Nat.digitChar (m / 100000 % 10), Nat.digitChar (m / 10000 % 10),
    Nat.digitChar (m / 1000 % 10), Nat.digitChar (m / 100 % 10),
    Nat.digitChar (m / 10 % 10), Nat.digitChar (m % 10)]

/-- Modelled from the spec: `generate()` of the Code Generator — samples
candidates in turn and re-samples until a candidate does not collide with a
code currently present in the Registry; `cands` is the sample stream. -/
def generate : List Nat → List String → Option String
  | [], _ => none
  | n :: rest, active =>
    let c := toCode n
    if c ∈ active then generate rest active else some c

/-- Modelled from the spec: the idle-session timeout (1 hour, in seconds). -/
def idleTimeout : Nat := 3600

/-- Modelled from the spec: the Reaper's reclamation test — zero members and
idle for at least the timeout. -/
def Session.shouldReap (s : Session) (now : Nat) : Bool :=
  s.members.isEmpty && decide (idleTimeout ≤ now - s.lastActivity)

/-- Modelled from the spec: one Reaper sweep over the Registry at time
`now`, deleting every reclaimable session. -/
def reap (reg : List Session) (now : Nat) : List Session :=
  reg.filter (fun s => !(s.shouldReap now))

/-- Modelled from the spec: `Registry.lookup` — the session keyed by a code,
if any. -/
def lookup (reg : List Session) (code : String) : Option Session :=
  reg.find? (fun s => s.code == code)

/-- Modelled from the spec: a join request addressed by code —
`SessionNotFound` when the code is absent from the Registry, otherwise
`Session.join`. -/
def joinByCode (reg : List Session) (code : String) (identity now : Nat) :
    Except SessionError (Session × List Emission) :=
  match lookup reg code with
  | none => .error .SessionNotFound
  | some s => s.join identity now

/-! ## Client session state of the App component in `src/unnamed/part_001` -/

/-- The pieces of App state relevant to the member count: `userCount` and
`partnerConnected`. -/
structure ClientState where
  userCount : Int
  partnerConnected : Bool
  deriving DecidableEq

/-- The `partner_connected` case of the message switch
(`src/unnamed/part_001` lines 74-82): adopt the carried `user_count` when
present, otherwise fall back to an increment capped at 5. -/
def onPartnerConnected (st : ClientState) (uc : Option Int) : ClientState :=
  match uc with
  | some n => { userCount := n, partnerConnected := true }
  | none => { userCount := min (st.userCount + 1) 5, partnerConnected := true }

/-- The `partner_disconnected` case of the message switch
(`src/unnamed/part_001` lines 84-96): adopt the carried `user_count` when
present, otherwise fall back to a decrement floored at 1. -/
def onPartnerDisconnected (st : ClientState) (uc : Option Int) : ClientState :=
  match uc with
  | some n => { userCount := n, partnerConnected := decide (1 < n) }
  | none =>
    let newCount := max (st.userCount - 1) 1
    { userCount := newCount, partnerConnected := decide (1 < newCount) }

/-! ## Claim C1 -/

/-- Claim C1 counterexample: on an incoming "Session is full" error the
`src/frontend/src/App.tsx` client raises an alert that names a capacity of 2
and nowhere mentions 5, so the claim that the client surfaces a session-full
error naming the capacity of 5 fails for that client. -/
theorem claim1_counterexample :
    errorAlertApp "Session is full" =
      some "Session is full. Maximum 2 users allowed." ∧
    (errorAlertApp "Session is full").map (fun a => jsIncludes a "5") =
      some false := by
  refine ⟨by decide, by decide⟩

/-- Claim C1, amended: the member count of a session always satisfies
0 ≤ count ≤ 5; a join attempted when the count is 5 always fails with
`SessionFull`; the `src/unnamed/part_001` client surfaces the rejection as a
session-full alert naming the capacity of 5, while the
`src/frontend/src/App.tsx` client surfaces it naming a capacity of 2. -/
theorem claim1_capacity (s : Session) (identity now : Nat) :
    (0 ≤ s.members.length) ∧
    (s.members.length = sessionCapacity →
      Session.join s identity now = .error .SessionFull) ∧
    (∀ s' ems, s.members.length ≤ sessionCapacity →
      Session.join s identity now = .ok (s', ems) →
      s'.members.length ≤ sessionCapacity) ∧
    errorAlertApp2 "Session is full" =
      some "Session is full. Maximum 5 users allowed." ∧
    errorAlertApp "Session is full" =
      some "Session is full. Maximum 2 users allowed." := by
  refine ⟨Nat.zero_le _, ?_, ?_, by decide, by decide⟩
  · intro h
    simp [Session.join, h]
  · intro s' ems hle hok
    simp only [Session.join, beq_iff_eq] at hok
    by_cases hb : s.members.length = sessionCapacity
    · rw [if_pos hb] at hok
      cases hok
    · rw [if_neg hb] at hok
      have hpair := Except.ok.inj hok
      have hs' : ({ s with members := s.members ++ [identity], lastActivity := now } : Session) = s' :=
        congrArg Prod.fst hpair
      rw [← hs']
      simp only [List.length_append, List.length_cons, List.length_nil]
      simp only [sessionCapacity] at hle hb ⊢
      omega

/-- Witness for claim C1: a join on a concrete session with five members
fails with `SessionFull`. -/
theorem claim1_witness :
    Session.join ⟨"483920", [1, 2, 3, 4, 5], 0⟩ 6 10 = .error .SessionFull :=
  (claim1_capacity ⟨"483920", [1, 2, 3, 4, 5], 0⟩ 6 10).2.1 rfl

/-! ## Claim C2 -/

/-- Claim C2: every `partner_connected`/`partner_disconnected` emission of a
join or leave carries a `user_count` equal to the session's member count at
the instant of emission, and the `src/unnamed/part_001` client adopts a
carried `user_count` verbatim, applying its local increment (capped at 5) or
decrement (floored at 1) fallback only when the count is omitted. -/
theorem claim2_user_count_accurate :
    (∀ s identity now s' ems, Session.join s identity now = .ok (s', ems) →
      ∀ e ∈ ems, e.msg = .partnerConnected s'.members.length) ∧
    (∀ s identity now, ∀ e ∈ (Session.leave s identity now).2,
      e.msg = .partnerDisconnected (Session.leave s identity now).1.members.length) ∧
    (∀ st n, (onPartnerConnected st (some n)).userCount = n ∧
      (onPartnerConnected st (some n)).partnerConnected = true) ∧
    (∀ st, (onPartnerConnected st none).userCount = min (st.userCount + 1) 5 ∧
      (onPartnerConnected st none).userCount ≤ 5) ∧
    (∀ st n, (onPartnerDisconnected st (some n)).userCount = n) ∧
    (∀ st, (onPartnerDisconnected st none).userCount = max (st.userCount - 1) 1 ∧
      1 ≤ (onPartnerDisconnected st none).userCount) := by
  refine ⟨?_, ?_, fun st n => ⟨rfl, rfl⟩, fun st => ⟨rfl, min_le_right _ _⟩,
    fun st n => rfl, fun st => ⟨rfl, le_max_right _ _⟩⟩
  · intro s identity now s' ems hok e he
    simp only [Session.join, beq_iff_eq] at hok
    by_cases hb : s.members.length = sessionCapacity
    · rw [if_pos hb] at hok
      cases hok
    · rw [if_neg hb] at hok
      have hpair := Except.ok.inj hok
      rw [Prod.mk.injEq] at hpair
      obtain ⟨hs', hems⟩ := hpair
      subst hems
      subst hs'
      simp only [List.mem_map] at he
      obtain ⟨m, _, rfl⟩ := he
      rfl
  · intro s identity now e he
    simp only [Session.leave, List.mem_map] at he
    obtain ⟨m, _, rfl⟩ := he
    rfl

/-- Witness for claim C2: a concrete join of a second member emits a
`partner_connected` with a count of 2 to the first member. -/
theorem claim2_witness :
    ({ target := 3, msg := .partnerConnected 2 } : Emission).msg =
      .partnerConnected (Session.mk "111111" [3, 7] 5).members.length :=
  claim2_user_count_accurate.1 ⟨"111111", [3], 0⟩ 7 5 ⟨"111111", [3, 7], 5⟩
    [{ target := 3, msg := .partnerConnected 2 }] rfl
    { target := 3, msg := .partnerConnected 2 } (List.mem_singleton.mpr rfl)

/-! ## Claim C5 -/

/-- Claim C5: a broadcast delivers the payload to every current member other
than the sender exactly once, and never back to the sender. -/
theorem claim5_broadcast_no_echo (s : Session) (sender payload now : Nat) :
    (∀ e ∈ (Session.broadcast s sender payload now).2,
      e.target ≠ sender ∧ e.msg = .relay payload) ∧
    (s.members.Nodup → ∀ m ∈ s.members, m ≠ sender →
      ((Session.broadcast s sender payload now).2.countP
        (fun e => e.target == m)) = 1) := by
  constructor
  · intro e he
    simp only [Session.broadcast, List.mem_map, List.mem_filter] at he
    obtain ⟨m, ⟨_, hm⟩, rfl⟩ := he
    exact ⟨by simpa using hm, rfl⟩
  · intro hnd m hm hms
    simp only [Session.broadcast, List.countP_map]
    have hcong : ∀ x ∈ s.members.filter (fun y => y != sender),
        (((fun e => Emission.target e == m) ∘
          (fun y => ({ target := y, msg := .relay payload } : Emission))) x = true ↔
          (fun y => y == m) x = true) := fun x _ => Iff.rfl
    rw [List.countP_congr hcong]
    have hone : (s.members.filter (fun y => y != sender)).count m = 1 := by
      have hmem : m ∈ s.members.filter (fun y => y != sender) := by
        simp [List.mem_filter, hm, hms]
      exact List.count_eq_one_of_mem (hnd.filter _) hmem
    exact hone

/-- Witness for claim C5: a concrete broadcast from member 1 in a session
with members 1, 2, 3 targets member 2 exactly once. -/
theorem claim5_witness :
    ((Session.broadcast ⟨"222222", [1, 2, 3], 0⟩ 1 4 9).2.countP
      (fun e => e.target == 2)) = 1 :=
  (claim5_broadcast_no_echo ⟨"222222", [1, 2, 3], 0⟩ 1 4 9).2
    (by decide) 2 (by decide) (by decide)

/-! ## Claim C4 -/

/-- A digit character produced by `Nat.digitChar` below 10 is a decimal
digit. -/
theorem digitChar_isDigit (k : Nat) (h : k < 10) :
    (Nat.digitChar k).isDigit = true := by
  interval_cases k <;> decide

/-- Every code produced by `toCode` is exactly six decimal digits. -/
theorem toCode_isSixDigitCode (n : Nat) : isSixDigitCode (toCode n) = true := by
  have h : ∀ m : Nat, (Nat.digitChar (m % 10)).isDigit = true := fun m =>
    digitChar_isDigit (m % 10) (Nat.mod_lt _ (by norm_num))
  simp [isSixDigitCode, toCode, h]

/-- Claim C4: whenever the generator returns a code, that code is exactly
six decimal digits and differs from every code currently present in the
Registry, because candidates colliding with an active code are re-sampled. -/
theorem claim4_generate_fresh_code :
    ∀ cands active c, generate cands active = some c →
      isSixDigitCode c = true ∧ c ∉ active := by
  intro cands
  induction cands with
  | nil =>
    intro active c h
    cases h
  | cons n rest ih =>
    intro active c h
    simp only [generate] at h
    by_cases hin : toCode n ∈ active
    · rw [if_pos hin] at h
      exact ih active c h
    · rw [if_neg hin] at h
      cases h
      exact ⟨toCode_isSixDigitCode n, hin⟩

/-- Witness for claim C4: generating from the sample stream 7 against a
Registry holding the code 483920. -/
theorem claim4_witness :
    isSixDigitCode "000007" = true ∧ "000007" ∉ ["483920"] :=
  claim4_generate_fresh_code [7] ["483920"] "000007" (by decide)

/-! ## Claim C6 -/

/-- Claim C6: a zero-member session is removed by a Reaper sweep exactly
when its idle duration has reached 1 hour; concretely, a join on the same
code after a sweep at 59 minutes of idle succeeds, while after a sweep at 61
minutes of idle it yields `SessionNotFound`. -/
theorem claim6_idle_reclamation :
    (∀ reg now s, s ∈ reg → s.members = [] →
      ((s ∉ reap reg now) ↔ idleTimeout ≤ now - s.lastActivity)) ∧
    (joinByCode (reap [⟨"483920", [], 0⟩] 3540) "483920" 7 3540 =
      .ok (⟨"483920", [7], 3540⟩, [])) ∧
    (joinByCode (reap [⟨"483920", [], 0⟩] 3660) "483920" 7 3660 =
      .error .SessionNotFound) := by
  refine ⟨?_, rfl, rfl⟩
  intro reg now s hmem hempty
  simp [reap, List.mem_filter, hmem, Session.shouldReap, hempty]

/-- Witness for claim C6: the reclamation criterion applied to a concrete
empty session at 61 minutes of idle. -/
theorem claim6_witness :
    ((⟨"483920", [], 0⟩ : Session) ∉ reap [⟨"483920", [], 0⟩] 3660) ↔
      idleTimeout ≤ 3660 - (⟨"483920", [], 0⟩ : Session).lastActivity :=
  claim6_idle_reclamation.1 [⟨"483920", [], 0⟩] 3660 ⟨"483920", [], 0⟩
    (List.mem_singleton.mpr rfl) rfl
